import Mathlib

/-
Verification development for the QuectelTowerRK library (src/QuectelTowerRK.cpp,
src/QuectelTowerRK.h): a shallow embedding of the response parsers, the tower
snapshot value type, the signal cache, and the scan coordinator worker loop,
together with theorems about the claims of the specification.

C strings are modelled as `List Char` (NUL-free; a NUL would terminate the C
string). Machine integers are modelled as `Nat`/`Int` with explicit reduction
modulo 2^32 where the C code stores into a 32-bit field.
-/

namespace QuectelTowerRK

/-- Particle Device OS error code `SYSTEM_ERROR_NONE`. -/
def SYSTEM_ERROR_NONE : Int := 0

/-- Particle Device OS error code `SYSTEM_ERROR_BUSY`. -/
def SYSTEM_ERROR_BUSY : Int := -110

/-- Particle Device OS error code `SYSTEM_ERROR_NOT_SUPPORTED`. -/
def SYSTEM_ERROR_NOT_SUPPORTED : Int := -120

/-- Particle Device OS error code `SYSTEM_ERROR_NOT_ENOUGH_DATA`. -/
def SYSTEM_ERROR_NOT_ENOUGH_DATA : Int := -211

/-- errno value `ENODATA` (newlib); `getSignal` returns `-ENODATA` when stale. -/
def ENODATA : Int := 61

/-- `enum class RadioAccessTechnology` from QuectelTowerRK.h. -/
inductive RadioAccessTechnology where
  | NONE
  | LTE
  | LTE_CAT_M1
  | LTE_NB_IOT
deriving DecidableEq, Repr

/-- The first character of a C string, where the end of the list stands for
the NUL terminator. -/
def cstrHead (s : List Char) : Char :=
  match s with
  | [] => Char.ofNat 0
  | c :: _ => c

/-- Model of C `strncmp(a, b, n)`: compare at most `n` characters, stopping at
the first difference or at a NUL. Only the sign of the result is specified by
C; we return -1/0/1. -/
def strncmp (a b : List Char) : Nat → Int
  | 0 => 0
  | n + 1 =>
    let ca := cstrHead a
    let cb := cstrHead b
    if ca = cb then
      if ca = Char.ofNat 0 then 0 else strncmp a.tail b.tail n
    else if ca < cb then -1 else 1

/-- `QuectelTowerRK::parseRadioAccessTechnology` (QuectelTowerRK.cpp lines
206-221): case-sensitive prefix dispatch via `strncmp`, first match wins. -/
def parseRadioAccessTechnology (str : List Char) : RadioAccessTechnology :=
  if strncmp str ("CAT-M".toList) 5 = 0 ∨ strncmp str ("eMTC".toList) 4 = 0 then
    RadioAccessTechnology.LTE_CAT_M1
  else if strncmp str ("LTE".toList) 3 = 0 then
    RadioAccessTechnology.LTE
  else if strncmp str ("CAT-NB".toList) 6 = 0 then
    RadioAccessTechnology.LTE_NB_IOT
  else
    RadioAccessTechnology.NONE

/-- Modelled from the spec words for the technology mapping (spec section 4.1):
a case-sensitive prefix match tried in order CAT-M/eMTC, then LTE, then
CAT-NB, anything else (including the empty string) giving None. Used only to
compare against `parseRadioAccessTechnology`, which is translated from the
source. -/
def ratSpecMapping (str : List Char) : RadioAccessTechnology :=
  if ("CAT-M".toList.isPrefixOf str ∨ "eMTC".toList.isPrefixOf str) then
    RadioAccessTechnology.LTE_CAT_M1
  else if ("LTE".toList.isPrefixOf str : Bool) then
    RadioAccessTechnology.LTE
  else if ("CAT-NB".toList.isPrefixOf str : Bool) then
    RadioAccessTechnology.LTE_NB_IOT
  else
    RadioAccessTechnology.NONE

/-- Character class of C `isspace` in the default locale. -/
def isSpaceC (c : Char) : Bool :=
  c == ' ' || c == '\t' || c == '\n' || c == '\x0b' || c == '\x0c' || c == '\r'

/-- Hexadecimal digit test for `%X`-style conversions. -/
def isHexDigitC (c : Char) : Bool :=
  c.isDigit || ('a' ≤ c && c ≤ 'f') || ('A' ≤ c && c ≤ 'F')

/-- Numeric value of a (decimal or hexadecimal) digit character. -/
def hexDigitVal (c : Char) : Nat :=
  if c.isDigit then c.toNat - '0'.toNat
  else if 'a' ≤ c && c ≤ 'f' then c.toNat - 'a'.toNat + 10
  else c.toNat - 'A'.toNat + 10

/-- Accumulate digit characters into a number in the given base. -/
def natOfDigits (base : Nat) (ds : List Char) : Nat :=
  ds.foldl (fun acc c => acc * base + hexDigitVal c) 0

/-- Head of a list is a hexadecimal digit. -/
def headIsHexDigit (s : List Char) : Bool :=
  match s with
  | c :: _ => isHexDigitC c
  | [] => false

/-- One numeric `scanf` conversion (`%u`/`%lu`/`%d` when `hex = false`,
`%X`/`%lX` when `hex = true`): skip whitespace, read an optional sign, for hex
an optional 0x/0X, then at least one digit. Returns the signed value and the
remaining input, or `none` on a matching failure. -/
def scanNum (hex : Bool) (input : List Char) : Option (Int × List Char) :=
  let afterWs := input.dropWhile isSpaceC
  let signed : Int × List Char :=
    match afterWs with
    | '-' :: r => (-1, r)
    | '+' :: r => (1, r)
    | r => (1, r)
  let sign := signed.fst
  let body := signed.snd
  let body2 :=
    if hex then
      match body with
      | '0' :: x :: r =>
        if (x == 'x' || x == 'X') && headIsHexDigit r then r else body
      | _ => body
    else body
  let pred := if hex then isHexDigitC else Char.isDigit
  let ds := body2.takeWhile pred
  if ds = [] then none
  else some (sign * Int.ofNat (natOfDigits (if hex then 16 else 10) ds), body2.drop ds.length)

/-- A value assigned by a successful `sscanf` conversion. -/
inductive ScanVal where
  | vstr (s : List Char)
  | vnum (n : Int)
deriving DecidableEq, Repr

/-- One directive of a `scanf` format string: literal whitespace, a literal
character, a (possibly assignment-suppressed) scanset `%15[^c]` with a width
and a single excluded character, or a numeric conversion. -/
inductive Directive where
  | ws
  | lit (c : Char)
  | scanset (maxw : Nat) (excl : Char) (suppressed : Bool)
  | decU
  | hexU
  | decS
deriving DecidableEq, Repr

/-- Result code for a failed directive: C `sscanf` returns EOF (-1) when an
input failure (end of input) occurs before the first conversion completes,
otherwise the number of assignments made so far. -/
def failCode (inputFail : Bool) (anyConv : Bool) (count : Nat) : Int :=
  if inputFail && !anyConv then -1 else (count : Int)

/-- The `sscanf` matching loop over a list of directives. `count` is the
number of assigned conversions, `anyConv` whether any conversion (assigned or
suppressed) has completed, `vals` the assigned values in order. -/
def runScan : List Directive → List Char → Nat → Bool → List ScanVal → Int × List ScanVal
  | [], _input, count, _any, vals => ((count : Int), vals)
  | Directive.ws :: cs, input, count, any, vals =>
    runScan cs (input.dropWhile isSpaceC) count any vals
  | Directive.lit ch :: cs, input, count, any, vals =>
    match input with
    | [] => (failCode true any count, vals)
    | a :: rest =>
      if a = ch then runScan cs rest count any vals
      else ((count : Int), vals)
  | Directive.scanset maxw excl sup :: cs, input, count, any, vals =>
    let taken := (input.take maxw).takeWhile (fun c => !(c == excl))
    if taken = [] then (failCode input.isEmpty any count, vals)
    else
      let rest := input.drop taken.length
      if sup then runScan cs rest count true vals
      else runScan cs rest (count + 1) true (vals ++ [ScanVal.vstr taken])
  | Directive.decU :: cs, input, count, any, vals =>
    match scanNum false input with
    | none => (failCode (input.dropWhile isSpaceC).isEmpty any count, vals)
    | some (v, rest) => runScan cs rest (count + 1) true (vals ++ [ScanVal.vnum v])
  | Directive.hexU :: cs, input, count, any, vals =>
    match scanNum true input with
    | none => (failCode (input.dropWhile isSpaceC).isEmpty any count, vals)
    | some (v, rest) => runScan cs rest (count + 1) true (vals ++ [ScanVal.vnum v])
  | Directive.decS :: cs, input, count, any, vals =>
    match scanNum false input with
    | none => (failCode (input.dropWhile isSpaceC).isEmpty any count, vals)
    | some (v, rest) => runScan cs rest (count + 1) true (vals ++ [ScanVal.vnum v])

/-- Model of `sscanf(input, fmt, ...)`: the return value (number of assigned
conversions, or EOF) together with the assigned values in order. -/
def sscanfRun (fmt : List Directive) (input : List Char) : Int × List ScanVal :=
  runScan fmt input 0 false []

/-- Literal characters of a format string as directives. -/
def litsOf (s : List Char) : List Directive :=
  s.map Directive.lit

/-- The format string of `CellularServing::parse` (QuectelTowerRK.cpp lines
230-232), directive by directive: a leading blank, the literal header, three
quoted scansets (the third assignment-suppressed), `%u,%u,%lX,`, five
suppressed comma-delimited scansets, then `%X,%d`. -/
def servingFormat : List Directive :=
  [Directive.ws] ++ litsOf ("+QENG:".toList) ++ [Directive.ws]
  ++ litsOf ("\"servingcell\",\"".toList)
  ++ [Directive.scanset 15 '"' false] ++ litsOf ("\",\"".toList)
  ++ [Directive.scanset 15 '"' false] ++ litsOf ("\",\"".toList)
  ++ [Directive.scanset 15 '"' true] ++ litsOf ("\",".toList)
  ++ [Directive.decU] ++ litsOf (",".toList)
  ++ [Directive.decU] ++ litsOf (",".toList)
  ++ [Directive.hexU] ++ litsOf (",".toList)
  ++ [Directive.scanset 15 ',' true] ++ litsOf (",".toList)
  ++ [Directive.scanset 15 ',' true] ++ litsOf (",".toList)
  ++ [Directive.scanset 15 ',' true] ++ litsOf (",".toList)
  ++ [Directive.scanset 15 ',' true] ++ litsOf (",".toList)
  ++ [Directive.scanset 15 ',' true] ++ litsOf (",".toList)
  ++ [Directive.hexU] ++ litsOf (",".toList)
  ++ [Directive.decS]

/-- The format string of `CellularNeighbor::parse` (QuectelTowerRK.cpp line
307), directive by directive. The space inside `"neighbourcell %*15[^"]"` is a
whitespace directive. `%lu` behaves like `%u` here (32-bit unsigned long). -/
def neighborFormat : List Directive :=
  [Directive.ws] ++ litsOf ("+QENG:".toList) ++ [Directive.ws]
  ++ litsOf ("\"neighbourcell".toList) ++ [Directive.ws]
  ++ [Directive.scanset 15 '"' true] ++ litsOf ("\",\"".toList)
  ++ [Directive.scanset 15 '"' false] ++ litsOf ("\",".toList)
  ++ [Directive.decU] ++ litsOf (",".toList)
  ++ [Directive.decU] ++ litsOf (",".toList)
  ++ [Directive.decS] ++ litsOf (",".toList)
  ++ [Directive.decS] ++ litsOf (",".toList)
  ++ [Directive.decS]

/-- Reduction of a converted value stored into a 32-bit unsigned field. -/
def wrap32u (v : Int) : Nat :=
  (v % ((2 : Int) ^ 32)).toNat

/-- Reduction of a converted value stored into a 32-bit signed `int` field
(two's complement). -/
def wrap32s (v : Int) : Int :=
  let m := v % ((2 : Int) ^ 32)
  if m ≥ (2 : Int) ^ 31 then m - (2 : Int) ^ 32 else m

/-- The `i`-th assigned value when it is a string, else the empty string. -/
def valsStr (vals : List ScanVal) (i : Nat) : List Char :=
  match vals[i]? with
  | some (ScanVal.vstr s) => s
  | _ => []

/-- The `i`-th assigned value when it is a number, else 0 (the field keeps its
cleared value when its conversion was never reached). -/
def valsNum (vals : List ScanVal) (i : Nat) : Int :=
  match vals[i]? with
  | some (ScanVal.vnum n) => n
  | _ => 0

/-- `class CellularServing` (QuectelTowerRK.h lines 83-141): the serving tower
record. `mcc`, `mnc` are `unsigned int`, `cellId` is `uint32_t`, `lac` is
`unsigned int`, `signalPower` is `int`. Defaults are the member initializers. -/
structure CellularServing where
  rat : RadioAccessTechnology := RadioAccessTechnology.NONE
  mcc : Nat := 0
  mnc : Nat := 0
  cellId : Nat := 0
  lac : Nat := 0
  signalPower : Int := 0
deriving DecidableEq, Repr

/-- `CellularServing::clear` (QuectelTowerRK.cpp lines 289-296). -/
def CellularServing.clear (_s : CellularServing) : CellularServing :=
  { rat := RadioAccessTechnology.NONE, mcc := 0, mnc := 0, cellId := 0, lac := 0
    signalPower := 0 }

/-- `CellularServing::isValid` (QuectelTowerRK.cpp lines 297-299). -/
def CellularServing.isValid (s : CellularServing) : Bool :=
  decide (s.rat ≠ RadioAccessTechnology.NONE)

/-- `CellularServing::parse` (QuectelTowerRK.cpp lines 224-246): clear, run
`sscanf` with `servingFormat`, store the assigned numeric fields (assignment
order: stateStr, ratStr, mcc, mnc, cellId, lac, signalPower; a field whose
conversion was never reached keeps its cleared value 0, matching `valsNum`'s
default), fail with `SYSTEM_ERROR_NOT_ENOUGH_DATA` when fewer than 7 items
were assigned, then map the technology token, failing with
`SYSTEM_ERROR_NOT_SUPPORTED` when it maps to NONE. Returns the error code and
the record (the C member function mutates `*this`). -/
def CellularServing.parse (self : CellularServing) (in_ : List Char) :
    Int × CellularServing :=
  let s0 := self.clear
  let r := sscanfRun servingFormat in_
  let nitems := r.fst
  let vals := r.snd
  let s1 : CellularServing :=
    { s0 with
      mcc := wrap32u (valsNum vals 2)
      mnc := wrap32u (valsNum vals 3)
      cellId := wrap32u (valsNum vals 4)
      lac := wrap32u (valsNum vals 5)
      signalPower := wrap32s (valsNum vals 6) }
  if nitems < 7 then (SYSTEM_ERROR_NOT_ENOUGH_DATA, s1)
  else
    let rat := parseRadioAccessTechnology (valsStr vals 1)
    let s2 := { s1 with rat := rat }
    if rat = RadioAccessTechnology.NONE then (SYSTEM_ERROR_NOT_SUPPORTED, s2)
    else (SYSTEM_ERROR_NONE, s2)

/-- `class CellularNeighbor` (QuectelTowerRK.h lines 147-204): a neighbor
tower record. -/
structure CellularNeighbor where
  rat : RadioAccessTechnology := RadioAccessTechnology.NONE
  earfcn : Nat := 0
  neighborId : Nat := 0
  signalQuality : Int := 0
  signalPower : Int := 0
  signalStrength : Int := 0
deriving DecidableEq, Repr

/-- `CellularNeighbor::clear` (QuectelTowerRK.cpp lines 358-365). -/
def CellularNeighbor.clear (_s : CellularNeighbor) : CellularNeighbor :=
  { rat := RadioAccessTechnology.NONE, earfcn := 0, neighborId := 0
    signalQuality := 0, signalPower := 0, signalStrength := 0 }

/-- `CellularNeighbor::isValid` (QuectelTowerRK.cpp lines 367-369). -/
def CellularNeighbor.isValid (s : CellularNeighbor) : Bool :=
  decide (s.rat ≠ RadioAccessTechnology.NONE)

/-- `CellularNeighbor::parse` (QuectelTowerRK.cpp lines 302-321): assignment
order is ratStr, earfcn, neighborId, signalQuality, signalPower,
signalStrength; fewer than 6 assigned items fails with
`SYSTEM_ERROR_NOT_ENOUGH_DATA`, an unknown technology token with
`SYSTEM_ERROR_NOT_SUPPORTED`. -/
def CellularNeighbor.parse (self : CellularNeighbor) (in_ : List Char) :
    Int × CellularNeighbor :=
  let s0 := self.clear
  let r := sscanfRun neighborFormat in_
  let nitems := r.fst
  let vals := r.snd
  let s1 : CellularNeighbor :=
    { s0 with
      earfcn := wrap32u (valsNum vals 1)
      neighborId := wrap32u (valsNum vals 2)
      signalQuality := wrap32s (valsNum vals 3)
      signalPower := wrap32s (valsNum vals 4)
      signalStrength := wrap32s (valsNum vals 5) }
  if nitems < 6 then (SYSTEM_ERROR_NOT_ENOUGH_DATA, s1)
  else
    let rat := parseRadioAccessTechnology (valsStr vals 0)
    let s2 := { s1 with rat := rat }
    if rat = RadioAccessTechnology.NONE then (SYSTEM_ERROR_NOT_SUPPORTED, s2)
    else (SYSTEM_ERROR_NONE, s2)

/-- `class TowerInfo` (QuectelTowerRK.h lines 209-303): one serving record
plus an ordered `std::vector` of neighbor records, modelled as a list. -/
structure TowerInfo where
  serving : CellularServing := {}
  neighbors : List CellularNeighbor := []
deriving DecidableEq, Repr

/-- `TowerInfo::clear` (QuectelTowerRK.cpp lines 417-420). -/
def TowerInfo.clear (t : TowerInfo) : TowerInfo :=
  { serving := t.serving.clear, neighbors := [] }

/-- `TowerInfo::isValid` (QuectelTowerRK.cpp lines 468-470). -/
def TowerInfo.isValid (t : TowerInfo) : Bool :=
  t.serving.isValid

/-- `TowerInfo::parseServing` (QuectelTowerRK.cpp lines 394-396). -/
def TowerInfo.parseServing (t : TowerInfo) (in_ : List Char) : Int × TowerInfo :=
  let r := t.serving.parse in_
  (r.fst, { t with serving := r.snd })

/-- `TowerInfo::parseNeighbor` (QuectelTowerRK.cpp lines 398-405): parse into
a default-constructed local record; on success push it onto the neighbor
vector, otherwise leave the object untouched. -/
def TowerInfo.parseNeighbor (t : TowerInfo) (in_ : List Char) : Int × TowerInfo :=
  let r := CellularNeighbor.parse {} in_
  if r.fst = SYSTEM_ERROR_NONE then
    (r.fst, { t with neighbors := t.neighbors ++ [r.snd] })
  else
    (r.fst, t)

/-- A store of `TowerInfo` objects addressed by location, used to model C++
reference assignment (`operator=`) including the aliased (self-assignment)
case. -/
def updateStore (store : Nat → TowerInfo) (i : Nat) (v : TowerInfo) :
    Nat → TowerInfo :=
  fun j => if j = i then v else store j

/-- The `push_back` loop of `TowerInfo::operator=` (QuectelTowerRK.cpp lines
387-389), iterating over a list of neighbor records captured when the loop
starts and appending each to the destination object's vector. -/
def pushNeighbors (st : Nat → TowerInfo) (dst : Nat)
    (l : List CellularNeighbor) : Nat → TowerInfo :=
  l.foldl
    (fun s nb => updateStore s dst { s dst with neighbors := (s dst).neighbors ++ [nb] })
    st

/-- `TowerInfo::operator=` (QuectelTowerRK.cpp lines 383-392), modelled on a
store so that the aliased case `dst = src` executes the same statements the
C++ code does: copy the serving record, clear the destination's neighbor
vector, then push each element of the source's (possibly just cleared)
neighbor vector. -/
def TowerInfo.assign (store : Nat → TowerInfo) (dst src : Nat) :
    Nat → TowerInfo :=
  let s1 := updateStore store dst { store dst with serving := (store src).serving }
  let s2 := updateStore s1 dst { s1 dst with neighbors := [] }
  pushNeighbors s2 dst ((s2 src).neighbors)

/-- `enum class CommandCode` (QuectelTowerRK.h lines 62-66). -/
inductive CommandCode where
  | None
  | Measure
  | Exit
deriving DecidableEq, Repr

/-- The Device OS `CellularSignal` object cached by the coordinator. Only its
strength value is inspected by this code (`getStrengthValue() < 0`); the
float strength is modelled as an `Int` since only its sign is used, and the
object is otherwise copied around opaquely. -/
structure CellularSignal where
  strengthValue : Int := 0
deriving DecidableEq, Repr

/-- The mutable state of the `QuectelTowerRK` singleton (QuectelTowerRK.h
lines 437-452). The capacity-1 `os_queue_t` command queue is an
`Option CommandCode`; the bound `std::function` scan callback is modelled by
whether it is non-null (`scanCallbackBound`), with actual invocations
reported by `threadFunctionStep` as a list of snapshot arguments. -/
structure QuectelState where
  commandQueue : Option CommandCode := none
  cellularSignal : CellularSignal := {}
  cellularSignalLastUpdate : Nat := 0
  receivedTowerInfo : TowerInfo := {}
  savedTowerInfo : TowerInfo := {}
  scanCallbackBound : Bool := false
deriving DecidableEq, Repr

/-- `os_queue_put(queue, &event, 0, nullptr)` on a queue of capacity 1 with a
zero timeout: returns 0 and enqueues when the queue is empty, otherwise a
nonzero error leaving the queue unchanged. -/
def os_queue_put (q : Option CommandCode) (e : CommandCode) :
    Int × Option CommandCode :=
  match q with
  | none => (0, some e)
  | some c => (-1, some c)

/-- `os_queue_take(queue, &event, timeout, nullptr)`: returns 0 and the queued
command when one is pending, else (after the timeout) a nonzero error. -/
def os_queue_take (q : Option CommandCode) :
    Int × CommandCode × Option CommandCode :=
  match q with
  | some c => (0, c, none)
  | none => (-1, CommandCode.None, none)

/-- `QuectelTowerRK::startScan` (QuectelTowerRK.cpp lines 69-74):
`CHECK_FALSE(os_queue_put(...), SYSTEM_ERROR_BUSY)` returns
`SYSTEM_ERROR_BUSY` when the put fails (queue full). -/
def startScan (st : QuectelState) : Int × QuectelState :=
  let r := os_queue_put st.commandQueue CommandCode.Measure
  if r.fst ≠ 0 then (SYSTEM_ERROR_BUSY, { st with commandQueue := r.snd })
  else (SYSTEM_ERROR_NONE, { st with commandQueue := r.snd })

/-- `QuectelTowerRK::cancelScan` (QuectelTowerRK.cpp lines 76-78):
`scanCallback = nullptr`. -/
def cancelScan (st : QuectelState) : QuectelState :=
  { st with scanCallbackBound := false }

/-- `QuectelTowerRK::waitOnEvent` (QuectelTowerRK.cpp lines 101-109): take
from the queue; on failure the event is `None`. -/
def waitOnEvent (q : Option CommandCode) : CommandCode × Option CommandCode :=
  let r := os_queue_take q
  if r.fst ≠ 0 then (CommandCode.None, r.snd.snd) else (r.snd.fst, r.snd.snd)

/-- The environment one worker iteration observes: transport readiness
(`Cellular.ready()`), the signal object returned by `Cellular.RSSI()`, the
current `System.uptime()`, and the data lines streamed to `serving_cb` /
`neighbor_cb` by the two `Cellular.command` transactions (the `TYPE_OK`
terminator line, which the callbacks ignore, is not included). -/
structure WorkerEnv where
  cellularReady : Bool := true
  rssi : CellularSignal := {}
  uptime : Nat := 0
  servingLines : List (List Char) := []
  neighborLines : List (List Char) := []

/-- The serving-transaction callback loop: `serving_cb` (QuectelTowerRK.cpp
lines 81-88) calls `receivedTowerInfo.parseServing(buf)` on every data line. -/
def feedServingLines (t : TowerInfo) (lines : List (List Char)) : TowerInfo :=
  lines.foldl (fun t l => (TowerInfo.parseServing t l).snd) t

/-- The neighbor-transaction callback loop: `neighbor_cb` (QuectelTowerRK.cpp
lines 90-98) calls `receivedTowerInfo.parseNeighbor(buf)` on every data line. -/
def feedNeighborLines (t : TowerInfo) (lines : List (List Char)) : TowerInfo :=
  lines.foldl (fun t l => (TowerInfo.parseNeighbor t l).snd) t

/-- One iteration of `QuectelTowerRK::threadFunction`'s loop (QuectelTowerRK.cpp
lines 115-175): dequeue an event, sample the signal strength when the modem
is ready, then dispatch the event. Returns the new state, the list of scan
callback invocations made this iteration (each with the snapshot passed by
value), and whether the loop continues (`false` after `Exit`). -/
def threadFunctionStep (st : QuectelState) (env : WorkerEnv) :
    QuectelState × List TowerInfo × Bool :=
  let we := waitOnEvent st.commandQueue
  let event := we.fst
  let st := { st with commandQueue := we.snd }
  let st :=
    if env.cellularReady then
      if env.rssi.strengthValue < 0 then
        { st with cellularSignal := env.rssi, cellularSignalLastUpdate := env.uptime }
      else
        { st with cellularSignalLastUpdate := 0 }
    else st
  match event with
  | CommandCode.None => (st, [], true)
  | CommandCode.Exit => (st, [], false)
  | CommandCode.Measure =>
    if !env.cellularReady then
      ({ st with savedTowerInfo := st.savedTowerInfo.clear }, [], true)
    else
      let recv0 := st.receivedTowerInfo.clear
      let recv1 := feedServingLines recv0 env.servingLines
      let recv2 := feedNeighborLines recv1 env.neighborLines
      let st := { st with receivedTowerInfo := recv2, savedTowerInfo := recv2 }
      let calls := if st.scanCallbackBound then [st.savedTowerInfo] else []
      (st, calls, true)

/-- Unsigned subtraction `System.uptime() - cellularSignalLastUpdate` at the
width of the promoted C expression. -/
def usub64 (a b : Nat) : Nat :=
  (a + 2 ^ 64 - b % 2 ^ 64) % 2 ^ 64

/-- `QuectelTowerRK::getSignal` (QuectelTowerRK.cpp lines 181-192): under the
lock, fail with `-ENODATA` when the timestamp is the 0 sentinel or the sample
is older than `max_age`; otherwise copy the cached sample into the caller's
output object. Returns the result code and the caller's object afterwards
(unchanged on the failure path). -/
def getSignal (st : QuectelState) (signal : CellularSignal) (uptime max_age : Nat) :
    Int × CellularSignal :=
  if st.cellularSignalLastUpdate = 0 ∨ usub64 uptime st.cellularSignalLastUpdate > max_age
  then (-ENODATA, signal)
  else (0, st.cellularSignal)

/-- `QuectelTowerRK::getSignalUpdate` (QuectelTowerRK.cpp lines 194-197). -/
def getSignalUpdate (st : QuectelState) : Nat :=
  st.cellularSignalLastUpdate

/-- `QuectelTowerRK::getTowerInfo` (QuectelTowerRK.cpp lines 199-203): copy
the last-completed snapshot, under the lock, into the caller's object (the
two objects are distinct, so `operator=` is a plain deep copy). -/
def getTowerInfo (st : QuectelState) : TowerInfo :=
  st.savedTowerInfo

/-- The record a neighbor response line contributes: `some` of the parsed
record when `CellularNeighbor::parse` on a default-constructed record
succeeds, `none` when the line is rejected. -/
def parsedNeighborOf (l : List Char) : Option CellularNeighbor :=
  let r := CellularNeighbor.parse {} l
  if r.fst = SYSTEM_ERROR_NONE then some r.snd else none

/-- A concrete valid serving record, used in concrete instantiations. -/
def exServingA : CellularServing :=
  { rat := RadioAccessTechnology.LTE, mcc := 310, mnc := 410, cellId := 6699
    lac := 26, signalPower := -85 }

/-- A concrete valid neighbor record, used in concrete instantiations. -/
def exNeighborA : CellularNeighbor :=
  { rat := RadioAccessTechnology.LTE, earfcn := 5110, neighborId := 389
    signalQuality := -3, signalPower := -88, signalStrength := -65 }

/-- A concrete snapshot with a valid serving cell, used for claim C1. -/
def exTowerValid : TowerInfo :=
  { serving := exServingA, neighbors := [exNeighborA] }

/-- Claim C1 concrete state: a Measure command pending, a previously
completed snapshot cached, a callback bound. -/
def exStateC1 : QuectelState :=
  { commandQueue := some CommandCode.Measure, savedTowerInfo := exTowerValid
    scanCallbackBound := true }

/-- Claim C1 concrete environment: the transport reports not ready. -/
def exEnvNotReady : WorkerEnv :=
  { cellularReady := false }

/-- Claim C2 concrete state: a Measure command pending and a callback bound. -/
def exStateC2 : QuectelState :=
  { commandQueue := some CommandCode.Measure, scanCallbackBound := true }

/-- Claim C2 concrete environment: transport ready, no response lines. -/
def exEnvReady : WorkerEnv :=
  { cellularReady := true, rssi := { strengthValue := -50 }, uptime := 100 }

/-- Claim C3 concrete state: empty command queue. -/
def exStateC3 : QuectelState := {}

/-- Claim C4 concrete serving line: all numeric fields well-formed but the
technology token `GSM` matches no known prefix. -/
def exLineC4 : List Char :=
  (" +QENG: \"servingcell\",\"NOCONN\",\"GSM\",\"FDD\",310,410,1A2B,a,b,c,d,e,1A,-85").toList

/-- Claim C5 concrete neighbor line, truncated after the fourth field. -/
def exLineC5 : List Char :=
  (" +QENG: \"neighbourcell intra\",\"LTE\",5110,389,-3").toList

/-- Claim C6 concrete two-object store: destination at 0, source at 1. -/
def exStoreC6 : Nat → TowerInfo :=
  fun i => if i = 0 then {} else { serving := exServingA, neighbors := [exNeighborA] }

/-- Claim C7 concrete neighbor line that parses successfully. -/
def exGoodLineC7 : List Char :=
  (" +QENG: \"neighbourcell intra\",\"LTE\",5110,389,-3,-88,-65").toList

/-- Claim C7 concrete malformed neighbor line. -/
def exBadLineC7 : List Char :=
  ("garbage").toList

/-- Claim C8 concrete state: a sample cached at uptime 5. -/
def exStateC8 : QuectelState :=
  { cellularSignal := { strengthValue := -70 }, cellularSignalLastUpdate := 5 }

/-- Claim C8/C10 concrete caller-side output object. -/
def exSigOut : CellularSignal :=
  { strengthValue := 123 }

/-- Claim C9 concrete store: every location holds a snapshot with one
neighbor. -/
def exStoreC9 : Nat → TowerInfo :=
  fun _ => { serving := exServingA, neighbors := [exNeighborA] }

/-- Claim C10 concrete state: the 0 sentinel timestamp (never updated). -/
def exStateC10 : QuectelState :=
  { cellularSignal := { strengthValue := -70 }, cellularSignalLastUpdate := 0 }

/-- `strncmp s l (length l)` is zero exactly when `l` is a prefix of `s`,
provided `l` has no NUL characters. -/
theorem strncmp_zero_iff (l : List Char) (hl : ∀ c ∈ l, c ≠ Char.ofNat 0) :
    ∀ s : List Char, (strncmp s l l.length = 0 ↔ l.isPrefixOf s = true) := by
  induction l with
  | nil =>
    intro s
    simp [strncmp, List.isPrefixOf]
  | cons d l ih =>
    have hd : d ≠ Char.ofNat 0 := hl d (List.mem_cons_self d l)
    have hl' : ∀ c ∈ l, c ≠ Char.ofNat 0 := fun c hc => hl c (List.mem_cons_of_mem d hc)
    intro s
    cases s with
    | nil =>
      have hcb : ¬ (Char.ofNat 0 = d) := fun h => hd h.symm
      constructor
      · intro h
        exfalso
        simp only [List.length_cons, strncmp, cstrHead] at h
        rw [if_neg hcb] at h
        revert h
        split <;> decide
      · intro h
        exact absurd h (by simp [List.isPrefixOf])
    | cons a s =>
      by_cases had : a = d
      · subst had
        simp only [List.length_cons, strncmp, cstrHead, List.tail_cons]
        rw [if_pos trivial, if_neg hd, ih hl' s]
        simp [List.isPrefixOf]
      · constructor
        · intro h
          exfalso
          simp only [List.length_cons, strncmp, cstrHead] at h
          rw [if_neg had] at h
          revert h
          split <;> decide
        · intro h
          simp only [List.isPrefixOf, Bool.and_eq_true, beq_iff_eq] at h
          exact absurd h.1.symm had

/-- The source's `strncmp`-based dispatch agrees with the spec's
prefix-match description, for every input string. -/
theorem parseRAT_eq_spec (str : List Char) :
    parseRadioAccessTechnology str = ratSpecMapping str := by
  have h1 : strncmp str ("CAT-M".toList) 5 = 0 ↔ ("CAT-M".toList.isPrefixOf str = true) :=
    strncmp_zero_iff ("CAT-M".toList) (by decide) str
  have h2 : strncmp str ("eMTC".toList) 4 = 0 ↔ ("eMTC".toList.isPrefixOf str = true) :=
    strncmp_zero_iff ("eMTC".toList) (by decide) str
  have h3 : strncmp str ("LTE".toList) 3 = 0 ↔ ("LTE".toList.isPrefixOf str = true) :=
    strncmp_zero_iff ("LTE".toList) (by decide) str
  have h4 : strncmp str ("CAT-NB".toList) 6 = 0 ↔ ("CAT-NB".toList.isPrefixOf str = true) :=
    strncmp_zero_iff ("CAT-NB".toList) (by decide) str
  unfold parseRadioAccessTechnology ratSpecMapping
  split_ifs <;> simp_all

/-- Claim C4: for every input string the radio-access-technology mapping is a
case-sensitive prefix match tried in order (CAT-M/eMTC to LTE-Cat-M1, then
LTE, then CAT-NB to LTE-NB-IoT), any other string including the empty one
giving NONE; and a serving line whose 7 required fields were assigned but
whose technology token maps to NONE makes `CellularServing::parse` fail with
`SYSTEM_ERROR_NOT_SUPPORTED`. -/
theorem claim_C4_rat_mapping :
    (∀ str, parseRadioAccessTechnology str = ratSpecMapping str)
    ∧ parseRadioAccessTechnology [] = RadioAccessTechnology.NONE
    ∧ (∀ s line, 7 ≤ (sscanfRun servingFormat line).fst →
        parseRadioAccessTechnology (valsStr (sscanfRun servingFormat line).snd 1) =
          RadioAccessTechnology.NONE →
        (CellularServing.parse s line).fst = SYSTEM_ERROR_NOT_SUPPORTED) := by
  refine ⟨parseRAT_eq_spec, by decide, ?_⟩
  intro s line h7 hnone
  simp only [CellularServing.parse]
  rw [if_neg (by omega), hnone, if_pos rfl]

/-- Claim C4 witness: a concrete serving line with sound numeric fields and
technology token GSM is rejected as unsupported. -/
theorem claim_C4_witness :
    (CellularServing.parse {} exLineC4).fst = SYSTEM_ERROR_NOT_SUPPORTED :=
  claim_C4_rat_mapping.2.2 {} exLineC4 (by decide) (by decide)

/-- Claim C5: a serving line with fewer than 7 assigned fields (resp. a
neighbor line with fewer than 6) fails with `SYSTEM_ERROR_NOT_ENOUGH_DATA`,
and after any failing parse the record's `isValid()` is false. -/
theorem claim_C5_not_enough_data :
    (∀ s line, (sscanfRun servingFormat line).fst < 7 →
        (CellularServing.parse s line).fst = SYSTEM_ERROR_NOT_ENOUGH_DATA)
    ∧ (∀ s line, (sscanfRun neighborFormat line).fst < 6 →
        (CellularNeighbor.parse s line).fst = SYSTEM_ERROR_NOT_ENOUGH_DATA)
    ∧ (∀ s line, (CellularServing.parse s line).fst ≠ SYSTEM_ERROR_NONE →
        ((CellularServing.parse s line).snd).isValid = false)
    ∧ (∀ s line, (CellularNeighbor.parse s line).fst ≠ SYSTEM_ERROR_NONE →
        ((CellularNeighbor.parse s line).snd).isValid = false) := by
  refine ⟨?_, ?_, ?_, ?_⟩
  · intro s line hlt
    simp only [CellularServing.parse]
    rw [if_pos hlt]
  · intro s line hlt
    simp only [CellularNeighbor.parse]
    rw [if_pos hlt]
  · intro s line h
    simp only [CellularServing.parse] at h ⊢
    by_cases hlt : (sscanfRun servingFormat line).fst < 7
    · rw [if_pos hlt]
      simp [CellularServing.isValid, CellularServing.clear]
    · rw [if_neg hlt] at h ⊢
      by_cases hrat :
          parseRadioAccessTechnology (valsStr (sscanfRun servingFormat line).snd 1) =
            RadioAccessTechnology.NONE
      · rw [if_pos hrat]
        simp [CellularServing.isValid, hrat]
      · rw [if_neg hrat] at h
        exact absurd rfl h
  · intro s line h
    simp only [CellularNeighbor.parse] at h ⊢
    by_cases hlt : (sscanfRun neighborFormat line).fst < 6
    · rw [if_pos hlt]
      simp [CellularNeighbor.isValid, CellularNeighbor.clear]
    · rw [if_neg hlt] at h ⊢
      by_cases hrat :
          parseRadioAccessTechnology (valsStr (sscanfRun neighborFormat line).snd 0) =
            RadioAccessTechnology.NONE
      · rw [if_pos hrat]
        simp [CellularNeighbor.isValid, hrat]
      · rw [if_neg hrat] at h
        exact absurd rfl h

/-- Claim C5 witness: a concrete empty serving line and a concrete truncated
neighbor line both fail with `SYSTEM_ERROR_NOT_ENOUGH_DATA`, and the record
left by the failing serving parse is invalid. -/
theorem claim_C5_witness :
    (CellularServing.parse {} []).fst = SYSTEM_ERROR_NOT_ENOUGH_DATA
    ∧ (CellularNeighbor.parse {} exLineC5).fst = SYSTEM_ERROR_NOT_ENOUGH_DATA
    ∧ ((CellularServing.parse {} []).snd).isValid = false :=
  ⟨claim_C5_not_enough_data.1 {} [] (by decide),
   claim_C5_not_enough_data.2.1 {} exLineC5 (by decide),
   claim_C5_not_enough_data.2.2.1 {} [] (by decide)⟩

/-- Claim C7: feeding neighbor response lines to a snapshot skips every line
whose parse fails (leaving serving record and neighbor sequence untouched),
appends exactly one entry at the end for every line whose parse succeeds,
and over a whole sequence of lines yields exactly the successfully parsed
records, in delivery order, appended to the existing sequence (no
deduplication). -/
theorem claim_C7_neighbor_accumulation :
    (∀ t l, (CellularNeighbor.parse {} l).fst ≠ SYSTEM_ERROR_NONE →
        (TowerInfo.parseNeighbor t l).snd = t)
    ∧ (∀ t l, (CellularNeighbor.parse {} l).fst = SYSTEM_ERROR_NONE →
        (TowerInfo.parseNeighbor t l).snd =
          { t with neighbors := t.neighbors ++ [(CellularNeighbor.parse {} l).snd] })
    ∧ (∀ t lines, (feedNeighborLines t lines).serving = t.serving
        ∧ (feedNeighborLines t lines).neighbors =
            t.neighbors ++ lines.filterMap parsedNeighborOf) := by
  have hskip : ∀ t l, (CellularNeighbor.parse {} l).fst ≠ SYSTEM_ERROR_NONE →
      (TowerInfo.parseNeighbor t l).snd = t := by
    intro t l h
    simp only [TowerInfo.parseNeighbor]
    rw [if_neg h]
  have happ : ∀ t l, (CellularNeighbor.parse {} l).fst = SYSTEM_ERROR_NONE →
      (TowerInfo.parseNeighbor t l).snd =
        { t with neighbors := t.neighbors ++ [(CellularNeighbor.parse {} l).snd] } := by
    intro t l h
    simp only [TowerInfo.parseNeighbor]
    rw [if_pos h]
  refine ⟨hskip, happ, ?_⟩
  intro t lines
  induction lines generalizing t with
  | nil => simp [feedNeighborLines]
  | cons l ls ih =>
    have hstep : feedNeighborLines t (l :: ls) =
        feedNeighborLines ((TowerInfo.parseNeighbor t l).snd) ls := rfl
    by_cases h : (CellularNeighbor.parse {} l).fst = SYSTEM_ERROR_NONE
    · rw [hstep, happ t l h]
      constructor
      · exact (ih _).1
      · rw [(ih _).2]
        simp [parsedNeighborOf, h, List.filterMap_cons]
    · rw [hstep, hskip t l h]
      constructor
      · exact (ih t).1
      · rw [(ih t).2]
        simp [parsedNeighborOf, h, List.filterMap_cons]

/-- Claim C7 witness: a concrete malformed line leaves a snapshot untouched,
and a concrete well-formed line appends exactly its parsed record. -/
theorem claim_C7_witness :
    (TowerInfo.parseNeighbor exTowerValid exBadLineC7).snd = exTowerValid
    ∧ (TowerInfo.parseNeighbor exTowerValid exGoodLineC7).snd =
        { exTowerValid with
          neighbors := exTowerValid.neighbors ++ [(CellularNeighbor.parse {} exGoodLineC7).snd] } :=
  ⟨claim_C7_neighbor_accumulation.1 exTowerValid exBadLineC7 (by decide),
   claim_C7_neighbor_accumulation.2.1 exTowerValid exGoodLineC7 (by decide)⟩

/-- Rebuilding a `TowerInfo` from its own fields gives the same value. -/
theorem towerInfo_eta (t : TowerInfo) :
    ({ serving := t.serving, neighbors := t.neighbors } : TowerInfo) = t := rfl

/-- Effect of the `push_back` loop at the destination location. -/
theorem pushNeighbors_at (l : List CellularNeighbor) :
    ∀ (st : Nat → TowerInfo) (dst : Nat),
      pushNeighbors st dst l dst = { st dst with neighbors := (st dst).neighbors ++ l } := by
  induction l with
  | nil =>
    intro st dst
    simp [pushNeighbors, towerInfo_eta]
  | cons nb l ih =>
    intro st dst
    have hstep : pushNeighbors st dst (nb :: l) =
        pushNeighbors
          (updateStore st dst { st dst with neighbors := (st dst).neighbors ++ [nb] })
          dst l := by
      simp [pushNeighbors, List.foldl_cons]
    rw [hstep, ih]
    simp [updateStore]

/-- The `push_back` loop touches no location other than the destination. -/
theorem pushNeighbors_other (l : List CellularNeighbor) :
    ∀ (st : Nat → TowerInfo) (dst j : Nat), j ≠ dst →
      pushNeighbors st dst l j = st j := by
  induction l with
  | nil =>
    intro st dst j _h
    simp [pushNeighbors]
  | cons nb l ih =>
    intro st dst j hj
    have hstep : pushNeighbors st dst (nb :: l) =
        pushNeighbors
          (updateStore st dst { st dst with neighbors := (st dst).neighbors ++ [nb] })
          dst l := by
      simp [pushNeighbors, List.foldl_cons]
    rw [hstep, ih _ _ _ hj]
    simp [updateStore, hj]

/-- Claim C6: assigning between two distinct snapshot objects is a deep copy:
the destination afterwards equals the source field-for-field (previous
contents discarded), the source is untouched, and any later mutation of the
source location leaves the destination's value unchanged. -/
theorem claim_C6_assign_deep_copy (store : Nat → TowerInfo) (dst src : Nat)
    (hne : dst ≠ src) :
    TowerInfo.assign store dst src dst = store src
    ∧ TowerInfo.assign store dst src src = store src
    ∧ ∀ v : TowerInfo, updateStore (TowerInfo.assign store dst src) src v dst = store src := by
  have hsd : src ≠ dst := Ne.symm hne
  have hsrc2 :
      (updateStore
        (updateStore store dst { store dst with serving := (store src).serving })
        dst
        { (updateStore store dst { store dst with serving := (store src).serving }) dst with
          neighbors := [] }) src = store src := by
    simp [updateStore, hsd]
  have hdst :
      TowerInfo.assign store dst src dst = store src := by
    simp only [TowerInfo.assign]
    rw [pushNeighbors_at]
    simp [updateStore, hsd, towerInfo_eta]
  refine ⟨hdst, ?_, ?_⟩
  · simp only [TowerInfo.assign]
    rw [pushNeighbors_other _ _ _ _ hsd]
    simp [updateStore, hsd]
  · intro v
    have : updateStore (TowerInfo.assign store dst src) src v dst =
        TowerInfo.assign store dst src dst := by
      simp [updateStore, hne]
    rw [this, hdst]

/-- Claim C6 witness: copying the concrete snapshot at location 1 over the
empty snapshot at location 0 makes location 0 equal to the source, and a
later overwrite of the source leaves it equal to the source's old value. -/
theorem claim_C6_witness :
    TowerInfo.assign exStoreC6 0 1 0 = exStoreC6 1
    ∧ updateStore (TowerInfo.assign exStoreC6 0 1) 1 {} 0 = exStoreC6 1 :=
  ⟨(claim_C6_assign_deep_copy exStoreC6 0 1 (by decide)).1,
   (claim_C6_assign_deep_copy exStoreC6 0 1 (by decide)).2.2 {}⟩

/-- Claim C9: self-assignment of a snapshot empties its neighbor sequence
while leaving the serving record unchanged, so it is not the identity on any
snapshot with at least one neighbor. -/
theorem claim_C9_self_assign (store : Nat → TowerInfo) (i : Nat) :
    (TowerInfo.assign store i i i).serving = (store i).serving
    ∧ (TowerInfo.assign store i i i).neighbors = []
    ∧ ((store i).neighbors ≠ [] → TowerInfo.assign store i i i ≠ store i) := by
  have hself : TowerInfo.assign store i i i = { store i with neighbors := [] } := by
    simp only [TowerInfo.assign]
    have h2 :
        (updateStore
          (updateStore store i { store i with serving := (store i).serving })
          i
          { (updateStore store i { store i with serving := (store i).serving }) i with
            neighbors := [] }) i =
          { store i with neighbors := [] } := by
      simp [updateStore, towerInfo_eta]
    rw [h2]
    rw [pushNeighbors_at]
    rw [h2]
    simp
  refine ⟨by rw [hself], by rw [hself], ?_⟩
  intro hne heq
  rw [hself] at heq
  have : (store i).neighbors = [] := by
    have := congrArg TowerInfo.neighbors heq
    simpa using this.symm
  exact hne this

/-- Claim C9 witness: self-assigning the concrete one-neighbor snapshot at
location 0 empties its neighbor list and changes the object. -/
theorem claim_C9_witness :
    (TowerInfo.assign exStoreC9 0 0 0).neighbors = []
    ∧ TowerInfo.assign exStoreC9 0 0 0 ≠ exStoreC9 0 :=
  ⟨(claim_C9_self_assign exStoreC9 0).2.1,
   (claim_C9_self_assign exStoreC9 0).2.2 (by decide)⟩

/-- Claim C1 counterexample: processing a Measure command while the transport
reports not ready does NOT leave the last-completed snapshot unchanged — at
this concrete state the snapshot returned by `getTowerInfo` changes (it is
cleared), even though the bound callback is indeed not invoked. -/
theorem claim_C1_counterexample :
    getTowerInfo (threadFunctionStep exStateC1 exEnvNotReady).fst ≠ getTowerInfo exStateC1
    ∧ (threadFunctionStep exStateC1 exEnvNotReady).snd.fst = [] := by
  decide

/-- Claim C1 (amended): when a Measure command is processed while the
transport reports not ready, the worker clears the last-completed snapshot
(so `getTowerInfo` afterwards returns the emptied snapshot, not the previous
one), and the bound scan callback is not invoked in that iteration (and
remains bound). -/
theorem claim_C1_not_ready_clears (st : QuectelState) (env : WorkerEnv)
    (hready : env.cellularReady = false)
    (hq : st.commandQueue = some CommandCode.Measure) :
    getTowerInfo (threadFunctionStep st env).fst = (getTowerInfo st).clear
    ∧ (threadFunctionStep st env).snd.fst = []
    ∧ (threadFunctionStep st env).fst.scanCallbackBound = st.scanCallbackBound := by
  simp [threadFunctionStep, waitOnEvent, os_queue_take, getTowerInfo, hq, hready]

/-- Claim C1 witness: the amended statement at the concrete state and
environment of the counterexample. -/
theorem claim_C1_witness :
    getTowerInfo (threadFunctionStep exStateC1 exEnvNotReady).fst = (getTowerInfo exStateC1).clear
    ∧ (threadFunctionStep exStateC1 exEnvNotReady).snd.fst = []
    ∧ (threadFunctionStep exStateC1 exEnvNotReady).fst.scanCallbackBound =
        exStateC1.scanCallbackBound :=
  claim_C1_not_ready_clears exStateC1 exEnvNotReady rfl rfl

/-- Claim C2 counterexample: at this concrete state the worker completes a
Measure on a ready transport and invokes the bound handler, yet the binding
is still present afterwards, and a second scan cycle — with no rebinding in
between — invokes the same handler again. -/
theorem claim_C2_counterexample :
    (threadFunctionStep exStateC2 exEnvReady).snd.fst.length = 1
    ∧ (threadFunctionStep exStateC2 exEnvReady).fst.scanCallbackBound = true
    ∧ (threadFunctionStep
        (startScan (threadFunctionStep exStateC2 exEnvReady).fst).snd
        exEnvReady).snd.fst.length = 1 := by
  decide

/-- Claim C2 (amended): after the worker completes a Measure command on a
ready transport it invokes the bound handler once with the published
snapshot, but the binding is NOT cleared — it stays bound and will fire again
on every subsequent completed scan cycle until `cancelScan` clears it or a
new binding replaces it. -/
theorem claim_C2_binding_persists (st : QuectelState) (env : WorkerEnv)
    (hready : env.cellularReady = true)
    (hq : st.commandQueue = some CommandCode.Measure)
    (hb : st.scanCallbackBound = true) :
    (threadFunctionStep st env).snd.fst = [(threadFunctionStep st env).fst.savedTowerInfo]
    ∧ (threadFunctionStep st env).fst.scanCallbackBound = true
    ∧ (cancelScan (threadFunctionStep st env).fst).scanCallbackBound = false := by
  have hev : waitOnEvent st.commandQueue = (CommandCode.Measure, none) := by
    simp [waitOnEvent, os_queue_take, hq]
  by_cases hr : env.rssi.strengthValue < 0 <;>
    simp [threadFunctionStep, hev, hready, hr, hb, cancelScan]

/-- Claim C2 witness: the amended statement at the concrete state and
environment of the counterexample. -/
theorem claim_C2_witness :
    (threadFunctionStep exStateC2 exEnvReady).snd.fst =
        [(threadFunctionStep exStateC2 exEnvReady).fst.savedTowerInfo]
    ∧ (threadFunctionStep exStateC2 exEnvReady).fst.scanCallbackBound = true
    ∧ (cancelScan (threadFunctionStep exStateC2 exEnvReady).fst).scanCallbackBound = false :=
  claim_C2_binding_persists exStateC2 exEnvReady rfl rfl rfl

/-- Claim C3: `startScan` on an empty capacity-1 command channel enqueues a
Measure command and returns `SYSTEM_ERROR_NONE`; when a command is already
pending it returns `SYSTEM_ERROR_BUSY` and changes nothing; hence two calls
before any drain yield exactly one success and one Busy. -/
theorem claim_C3_admission_control :
    (∀ st, st.commandQueue = none →
        startScan st = (SYSTEM_ERROR_NONE, { st with commandQueue := some CommandCode.Measure }))
    ∧ (∀ st c, st.commandQueue = some c → startScan st = (SYSTEM_ERROR_BUSY, st))
    ∧ (∀ st, st.commandQueue = none →
        (startScan st).fst = SYSTEM_ERROR_NONE
        ∧ (startScan (startScan st).snd).fst = SYSTEM_ERROR_BUSY) := by
  have hok : ∀ st : QuectelState, st.commandQueue = none →
      startScan st = (SYSTEM_ERROR_NONE, { st with commandQueue := some CommandCode.Measure }) := by
    intro st hq
    simp [startScan, os_queue_put, hq]
  have hbusy : ∀ (st : QuectelState) (c : CommandCode), st.commandQueue = some c →
      startScan st = (SYSTEM_ERROR_BUSY, st) := by
    intro st c hq
    have hst : { st with commandQueue := some c } = st := by
      rw [← hq]
    simp [startScan, os_queue_put, hq, hst]
  refine ⟨hok, hbusy, ?_⟩
  intro st hq
  constructor
  · rw [hok st hq]
  · rw [hok st hq]
    exact congrArg Prod.fst (hbusy _ CommandCode.Measure rfl)

/-- Claim C3 witness: from the concrete empty-queue state, the first
`startScan` succeeds and an immediate second one is rejected Busy. -/
theorem claim_C3_witness :
    (startScan exStateC3).fst = SYSTEM_ERROR_NONE
    ∧ (startScan (startScan exStateC3).snd).fst = SYSTEM_ERROR_BUSY :=
  claim_C3_admission_control.2.2 exStateC3 rfl

/-- Claim C8: with uptime at least the cached timestamp (uptime is monotonic
and the timestamp was taken from an earlier uptime) and below the arithmetic
width, `getSignal` returns a copy of the cached sample exactly when the
timestamp is nonzero and the sample's age is at most `max_age`; otherwise it
fails with `-ENODATA` leaving the output object alone. -/
theorem claim_C8_signal_freshness (st : QuectelState) (sig : CellularSignal)
    (uptime max_age : Nat)
    (hmono : st.cellularSignalLastUpdate ≤ uptime) (hup : uptime < 2 ^ 64) :
    ((st.cellularSignalLastUpdate ≠ 0 ∧ uptime - st.cellularSignalLastUpdate ≤ max_age) →
        getSignal st sig uptime max_age = (0, st.cellularSignal))
    ∧ ((st.cellularSignalLastUpdate = 0 ∨ max_age < uptime - st.cellularSignalLastUpdate) →
        getSignal st sig uptime max_age = (-ENODATA, sig)) := by
  have h64 : (2 : Nat) ^ 64 = 18446744073709551616 := by norm_num
  have hu : usub64 uptime st.cellularSignalLastUpdate = uptime - st.cellularSignalLastUpdate := by
    unfold usub64
    rw [h64] at hup ⊢
    omega
  constructor
  · rintro ⟨h0, hage⟩
    have hcond : ¬ (st.cellularSignalLastUpdate = 0
        ∨ usub64 uptime st.cellularSignalLastUpdate > max_age) := by
      rw [hu]
      push_neg
      exact ⟨h0, hage⟩
    simp [getSignal, hcond]
  · intro h
    have hcond : st.cellularSignalLastUpdate = 0
        ∨ usub64 uptime st.cellularSignalLastUpdate > max_age := by
      rw [hu]
      exact h
    simp [getSignal, hcond]

/-- Claim C8 witness: the concrete cached sample (timestamp 5) is returned at
uptime 8 with `max_age` 10. -/
theorem claim_C8_witness :
    getSignal exStateC8 exSigOut 8 10 = (0, exStateC8.cellularSignal) :=
  (claim_C8_signal_freshness exStateC8 exSigOut 8 10 (by decide) (by norm_num)).1
    ⟨by decide, by decide⟩

/-- Claim C10: whenever `getSignal` fails with `-ENODATA`, the caller's output
signal object is returned unmodified; it is written only on the success
path. -/
theorem claim_C10_stale_leaves_output (st : QuectelState) (sig : CellularSignal)
    (uptime max_age : Nat)
    (h : (getSignal st sig uptime max_age).fst = -ENODATA) :
    (getSignal st sig uptime max_age).snd = sig := by
  by_cases hc : st.cellularSignalLastUpdate = 0
      ∨ usub64 uptime st.cellularSignalLastUpdate > max_age
  · simp [getSignal, hc]
  · simp [getSignal, hc] at h
    exact absurd h (by norm_num [ENODATA])

/-- Claim C10 witness: at the concrete never-updated state the call fails
stale and hands back the caller's object untouched. -/
theorem claim_C10_witness :
    (getSignal exStateC10 exSigOut 100 10).snd = exSigOut :=
  claim_C10_stale_leaves_output exStateC10 exSigOut 100 10 (by decide)

end QuectelTowerRK
